import Mathlib

/-!
Verification of `torch/distributed/rpc/internal.py`.

The file shallowly embeds the RPC codec of that module:

* `_InternalRPCPickler.serialize` / `deserialize` become explicit
  state-passing functions over `TLS`, the model of the module-level
  `_thread_local_tensor_tables` slot (`send_tables` / `recv_tables`,
  each `Option` because Python deletes the attribute to mean "absent").
* The pickle traversal `p.dump` becomes `pdump` (value graph → wire
  form, appending encountered tensors to the thread-local send table,
  exactly as `_tensor_reducer` does), and `unpickler.load` becomes
  `pload` (wire form → value, fetching tensors from the supplied
  table, exactly as `_tensor_receiver` does).
* Tensors are opaque handles (`Nat`); RRef fork data is the pair
  carried by `_py_rref_reducer` / `_py_rref_receiver`, whose external
  `_serialize` / `_deserialize` hooks are modelled as an inverse pair.
* `_run_function`, `_handle_exception` and `_build_rpc_profiling_key`
  are embedded directly; ambient runtime facilities (the worker info
  string, `traceback.format_exc`, the Python function registry used to
  invoke a UDF) are explicit parameters.
-/

namespace RpcInternal

/-- Opaque tensor handle: the codec never inspects tensor contents, only
moves whole tensors in and out of the side tables. -/
abbrev Tensor := Nat

/-- Model of the module-level `_thread_local_tensor_tables` slot for one
thread.  `none` models the attribute being absent (after `del` or before
first assignment); `some tbl` models the attribute holding list `tbl`. -/
structure TLS where
  send_tables : Option (List Tensor)
  recv_tables : Option (List Tensor)
deriving DecidableEq, Repr

/-- Serialized module bytes (the `torch.jit.save` output), opaque to
this codec. -/
abbrev Bytes := List Nat

mutual

/-- Python value graphs handed to `serialize`: plain scalars, containers
(lists, tuples, dicts), and all five special types whose reducers are
installed in `serialize`'s dispatch table — `torch.Tensor` via
`_tensor_reducer`, RRefs (both `rpc.PyRRef` and `rpc.RRef`, which share
the fork-data path) via `_py_rref_reducer`/`_rref_reducer`,
`torch.jit.ScriptModule` via `_script_module_reducer`,
`torch.jit.RecursiveScriptModule` via
`_recursive_script_module_reducer`, and `dist.nn.RemoteModule` via
`_remote_module_reducer`.  A script module is identified by its
`torch.jit.save` byte form (the external save/load codec is an inverse
pair, so the bytes determine the module); a RemoteModule is the record
of the attributes its receiver takes positionally
(`on`, here `onWorker`; `device`; `is_device_map_set`; `is_scriptable`;
`generated_methods` as opaque method names; and the fork data of its
`module_rref`), i.e. an instance carrying exactly the allow-listed
attributes.  Also included: a picklable function reference (pickled by
global name), a value whose special-type handler performs a full nested
`serialize` call (`nested`, modelled from the spec, see `pdump`), and a
value pickle cannot serialize at all (`unpicklable`). -/
inductive Value where
  | noneV
  | boolV (b : Bool)
  | intV (n : Int)
  | strV (s : String)
  | tensor (t : Tensor)
  | rref (owner : Nat) (id : Nat)
  | scriptModule (saved : Bytes)
  | recursiveScriptModule (saved : Bytes)
  | remoteModule (onWorker : String) (device : String) (is_device_map_set : Bool)
      (is_scriptable : Bool) (generated_methods : List String)
      (module_rref_owner : Nat) (module_rref_id : Nat)
  | func (name : String)
  | vlist (xs : ValueList)
  | vtuple (xs : ValueList)
  | vdict (kvs : ValueKVs)
  | nested (inner : Value)
  | unpicklable
deriving DecidableEq, Repr

/-- Spine of a Python list/tuple of values. -/
inductive ValueList where
  | nil
  | cons (hd : Value) (tl : ValueList)
deriving DecidableEq, Repr

/-- Spine of a Python dict: key/value pairs in insertion order. -/
inductive ValueKVs where
  | nil
  | cons (k : Value) (v : Value) (tl : ValueKVs)
deriving DecidableEq, Repr

end

/-- Python errors raised during name resolution. -/
inductive PyErr where
  | nameError (name : String)
deriving DecidableEq, Repr

/-- Python name resolution in a function body: look the name up among
the local bindings of the frame.  (Module globals are part of the
lookup chain in Python; they are omitted here because the source module
binds no global named `script_module_serialized`, which is the only
name this model is used to resolve.) -/
def lookupVar (locals : List (String × Bytes)) (n : String) : Option Bytes :=
  (locals.find? (fun p => p.1 = n)).map (fun p => p.2)

/-- Model of `_InternalRPCPickler._recursive_script_module_receiver`.
Its parameter is named `recursive_script_module_serialized`, but its
body reads `f = io.BytesIO(script_module_serialized)`: the free name
`script_module_serialized` is resolved against the frame's local
bindings (only the parameter) before `torch.jit.load` — modelled by the
explicit `jitLoad` parameter — can run. -/
def _recursive_script_module_receiver (jitLoad : Bytes → Value)
    (recursive_script_module_serialized : Bytes) : Except PyErr Value :=
  let locals : List (String × Bytes) :=
    [("recursive_script_module_serialized", recursive_script_module_serialized)]
  match lookupVar locals "script_module_serialized" with
  | some b => .ok (jitLoad b)
  | none => .error (.nameError "script_module_serialized")

/-- Model of `_InternalRPCPickler._recursive_script_module_reducer`:
the payload it hands to the receiver is `torch.jit.save` of the module
— modelled by the explicit `jitSave` parameter. -/
def _recursive_script_module_reducer (jitSave : Value → Bytes)
    (recursive_script_module : Value) : Bytes :=
  jitSave recursive_script_module

mutual

/-- The byte stream produced by the pickler, in structured form: scalar
and container opcodes, the tensor placeholder emitted by
`_tensor_reducer` (carrying only the table index), embedded RRef fork
data, the saved-bytes payloads emitted by `_script_module_reducer`,
`_recursive_script_module_reducer` and `_remote_module_reducer` (the
latter carrying the receiver's positional argument tuple), a global
symbol reference, the blob emitted by the nested-encode handler, and a
malformed opcode sequence (`corrupt`, only ever consumed by
`deserialize`, never produced by `serialize`). -/
inductive Wire where
  | noneW
  | boolW (b : Bool)
  | intW (n : Int)
  | strW (s : String)
  | tensorRef (idx : Nat)
  | rrefData (owner : Nat) (id : Nat)
  | scriptModulePayload (saved : Bytes)
  | recursiveScriptModulePayload (saved : Bytes)
  | remoteModulePayload (onWorker : String) (device : String) (is_device_map_set : Bool)
      (is_scriptable : Bool) (generated_methods : List String)
      (module_rref_owner : Nat) (module_rref_id : Nat)
  | globalRef (name : String)
  | wlist (xs : WireList)
  | wtuple (xs : WireList)
  | wdict (kvs : WireKVs)
  | blob (w : Wire) (tensors : List Tensor)
  | corrupt
deriving DecidableEq, Repr

/-- Spine of an encoded list/tuple. -/
inductive WireList where
  | nil
  | cons (hd : Wire) (tl : WireList)
deriving DecidableEq, Repr

/-- Spine of an encoded dict. -/
inductive WireKVs where
  | nil
  | cons (k : Wire) (v : Wire) (tl : WireKVs)
deriving DecidableEq, Repr

end

mutual

/-- Model of `p.dump(obj)` inside `_InternalRPCPickler.serialize`: the
structural pickle traversal with the dispatch table installed in
`serialize`.  Returns `none` in the first component when the traversal
raises (the value is unpicklable, or `_tensor_reducer` touches an absent
`send_tables` attribute); the returned `TLS` is the thread-local state
at that moment — pickle does not roll it back.

The `tensor` case is `_tensor_reducer`: append to
`_thread_local_tensor_tables.send_tables`, emit a placeholder carrying
`len(send_tables) - 1`.  The `rref` case is `_py_rref_reducer`: embed
the fork data.  The `nested` case is Modelled from the spec: a
special-type handler (spec §4.2, CompiledBlob/RemoteProxy) that
triggers a full nested `serialize` call on the same thread; its body is
exactly the save/initialize/dump/restore sequence of
`_InternalRPCPickler.serialize` applied to the inner value, and the
resulting (bytes, tensor table) pair is embedded as a blob token. -/
def pdump (v : Value) (tls : TLS) : Option Wire × TLS :=
  match v with
  | .noneV => (some .noneW, tls)
  | .boolV b => (some (.boolW b), tls)
  | .intV n => (some (.intW n), tls)
  | .strV s => (some (.strW s), tls)
  | .tensor t =>
    match tls.send_tables with
    | some tbl => (some (.tensorRef tbl.length), ⟨some (tbl ++ [t]), tls.recv_tables⟩)
    | none => (none, tls)
  | .rref o i => (some (.rrefData o i), tls)
  | .scriptModule saved =>
    -- _script_module_reducer: torch.jit.save the module, emit the bytes;
    -- save projects the module's byte identity.
    (some (.scriptModulePayload saved), tls)
  | .recursiveScriptModule saved =>
    -- _recursive_script_module_reducer: likewise jit.save, emit the bytes
    -- (the reducer itself works; only its receiver is broken).
    (some (.recursiveScriptModulePayload saved), tls)
  | .remoteModule onW dev dm sc gm mo mi =>
    -- _remote_module_reducer: emit the allow-listed attributes plus the
    -- module_rref's fork data, in the receiver's positional order.
    (some (.remoteModulePayload onW dev dm sc gm mo mi), tls)
  | .func n => (some (.globalRef n), tls)
  | .vlist xs =>
    match pdumpList xs tls with
    | (some ws, tls2) => (some (.wlist ws), tls2)
    | (none, tls2) => (none, tls2)
  | .vtuple xs =>
    match pdumpList xs tls with
    | (some ws, tls2) => (some (.wtuple ws), tls2)
    | (none, tls2) => (none, tls2)
  | .vdict kvs =>
    match pdumpKVs kvs tls with
    | (some ws, tls2) => (some (.wdict ws), tls2)
    | (none, tls2) => (none, tls2)
  | .nested inner =>
    match pdump inner ⟨some [], tls.recv_tables⟩ with
    | (some w, tls2) =>
      (some (.blob w (tls2.send_tables.getD [])), ⟨tls.send_tables, tls2.recv_tables⟩)
    | (none, tls2) => (none, tls2)
  | .unpicklable => (none, tls)
termination_by structural v

/-- Pickle traversal of a list/tuple spine, left to right; an exception
in one element aborts the rest. -/
def pdumpList (xs : ValueList) (tls : TLS) : Option WireList × TLS :=
  match xs with
  | .nil => (some .nil, tls)
  | .cons hd tl =>
    match pdump hd tls with
    | (some w, tls2) =>
      match pdumpList tl tls2 with
      | (some ws, tls3) => (some (.cons w ws), tls3)
      | (none, tls3) => (none, tls3)
    | (none, tls2) => (none, tls2)
termination_by structural xs

/-- Pickle traversal of a dict spine, key before value, insertion
order. -/
def pdumpKVs (kvs : ValueKVs) (tls : TLS) : Option WireKVs × TLS :=
  match kvs with
  | .nil => (some .nil, tls)
  | .cons k v tl =>
    match pdump k tls with
    | (some wk, tls2) =>
      match pdump v tls2 with
      | (some wv, tls3) =>
        match pdumpKVs tl tls3 with
        | (some ws, tls4) => (some (.cons wk wv ws), tls4)
        | (none, tls4) => (none, tls4)
      | (none, tls3) => (none, tls3)
    | (none, tls2) => (none, tls2)
termination_by structural kvs

end

/-- Model of `_InternalRPCPickler.serialize`: save the thread-local
`send_tables` slot (absent ↦ `none`), set it to the empty list, run the
pickle dump, then on normal return read the accumulated tensor list and
restore the saved slot (`del` when it was absent).  When the dump
raises, the function propagates the exception: the lines after
`p.dump(obj)` never run, so the slot is left exactly as the failed
traversal left it. -/
def serialize (tls : TLS) (obj : Value) : Option (Wire × List Tensor) × TLS :=
  match pdump obj ⟨some [], tls.recv_tables⟩ with
  | (some w, tls2) =>
    (some (w, tls2.send_tables.getD []), ⟨tls.send_tables, tls2.recv_tables⟩)
  | (none, tls2) => (none, tls2)

/-- Exceptions the unpickling traversal can raise: `attributeError` is
what pickle raises when a referenced global symbol cannot be resolved
(the only kind `deserialize` catches), `indexError` is what
`_tensor_receiver` raises on an out-of-range table index,
`unpicklingError` is what a malformed opcode sequence raises, and
`nameError` is what `_recursive_script_module_receiver` raises (a
`NameError` is not an `AttributeError`, so `deserialize` does not catch
it). -/
inductive LoadErr where
  | attributeError (msg : String)
  | indexError
  | unpicklingError
  | nameError (name : String)
deriving DecidableEq, Repr

/-- Model of `str(e)` for the `AttributeError` pickle raises when a
global symbol is missing on the receiving side. -/
def cantGetAttr (name : String) : String :=
  "Cant get attribute " ++ name ++ " on module"

mutual

/-- Model of `unpickler.load()` inside `deserialize`: the structural
unpickling traversal.  `env` is the set of global symbols resolvable on
the receiving side; `tbl` is the thread-local `recv_tables` list, which
`deserialize` sets to the supplied tensor table before loading.

The `tensorRef` case is `_tensor_receiver`:
`recv_tables[tensor_index]`, raising `IndexError` when out of range.
The `rrefData` case is `_py_rref_receiver` with the external
`_deserialize` hook modelled as the inverse of the `_serialize` hook.
The `globalRef` case is pickle global-symbol resolution, raising
`AttributeError` when the symbol is absent.  The `blob` case is
Modelled from the spec: the nested-encode handler's receiver loads the
embedded (bytes, tensor table) pair with its own table. -/
def pload (env : List String) (tbl : List Tensor) (w : Wire) : Except LoadErr Value :=
  match w with
  | .noneW => .ok .noneV
  | .boolW b => .ok (.boolV b)
  | .intW n => .ok (.intV n)
  | .strW s => .ok (.strV s)
  | .tensorRef idx =>
    if h : idx < tbl.length then .ok (.tensor (tbl.get ⟨idx, h⟩))
    else .error .indexError
  | .rrefData o i => .ok (.rref o i)
  | .scriptModulePayload saved =>
    -- _script_module_receiver: torch.jit.load the bytes (external inverse
    -- of save).
    .ok (.scriptModule saved)
  | .recursiveScriptModulePayload saved =>
    -- _recursive_script_module_receiver: dies on the unbound name
    -- script_module_serialized before its load hook can run.
    match _recursive_script_module_receiver (fun b => .recursiveScriptModule b) saved with
    | .ok v => .ok v
    | .error (.nameError n) => .error (.nameError n)
  | .remoteModulePayload onW dev dm sc gm mo mi =>
    -- _remote_module_receiver: rebuild the RemoteModule from its
    -- positional attributes, reconstructing module_rref from fork data
    -- and re-attaching the generated methods.
    .ok (.remoteModule onW dev dm sc gm mo mi)
  | .globalRef n =>
    if env.contains n then .ok (.func n)
    else .error (.attributeError (cantGetAttr n))
  | .wlist ws =>
    match ploadList env tbl ws with
    | .ok vs => .ok (.vlist vs)
    | .error e => .error e
  | .wtuple ws =>
    match ploadList env tbl ws with
    | .ok vs => .ok (.vtuple vs)
    | .error e => .error e
  | .wdict ws =>
    match ploadKVs env tbl ws with
    | .ok vs => .ok (.vdict vs)
    | .error e => .error e
  | .blob inner tensors =>
    match pload env tensors inner with
    | .ok v => .ok (.nested v)
    | .error e => .error e
  | .corrupt => .error .unpicklingError
termination_by structural w

/-- Unpickling of a list/tuple spine; the first exception aborts the
rest. -/
def ploadList (env : List String) (tbl : List Tensor) (ws : WireList) :
    Except LoadErr ValueList :=
  match ws with
  | .nil => .ok .nil
  | .cons w tl =>
    match pload env tbl w with
    | .ok v =>
      match ploadList env tbl tl with
      | .ok vs => .ok (.cons v vs)
      | .error e => .error e
    | .error e => .error e
termination_by structural ws

/-- Unpickling of a dict spine, key before value. -/
def ploadKVs (env : List String) (tbl : List Tensor) (ws : WireKVs) :
    Except LoadErr ValueKVs :=
  match ws with
  | .nil => .ok .nil
  | .cons wk wv tl =>
    match pload env tbl wk with
    | .ok k =>
      match pload env tbl wv with
      | .ok v =>
        match ploadKVs env tbl tl with
        | .ok vs => .ok (.cons k v vs)
        | .error e => .error e
      | .error e => .error e
    | .error e => .error e
termination_by structural ws

end

/-- The remediation text `deserialize` appends to the caught
`AttributeError`'s message, verbatim from the source's triple-quoted
string. -/
def udfHint : String :=
  " Default RPC pickler does not serialize\n            function code. Ensure that UDFs are defined on both caller and\n            callee modules."

/-- A deserialized Python object as seen by the execution layer: an
ordinary value, the `AttributeError` instance `deserialize` returns on
a missing symbol, a `PythonUDF` call descriptor (`func`, `args`,
`kwargs`), or a `RemoteException` record (`msg`, `exception_type`). -/
inductive PyObj where
  | value (v : Value)
  | attrErr (msg : String)
  | udf (fname : String) (args : List Value) (kwargs : List (String × Value))
  | remoteException (msg : String) (excType : String)
deriving DecidableEq, Repr

/-- Model of `_InternalRPCPickler.deserialize`: save the thread-local
`recv_tables` slot, set it to the supplied table, run `unpickler.load()`
inside `try/except AttributeError`.  On a caught `AttributeError` the
result is a new `AttributeError` whose message is the original message
plus `udfHint` — returned, not raised.  On those two paths the saved
slot is restored (`del` when it was absent).  Any other exception
propagates (`none` in the first component) and skips the restore lines,
leaving `recv_tables` holding the supplied table. -/
def deserialize (env : List String) (tls : TLS) (w : Wire) (tensor_table : List Tensor) :
    Option PyObj × TLS :=
  match pload env tensor_table w with
  | .ok v => (some (.value v), ⟨tls.send_tables, tls.recv_tables⟩)
  | .error (.attributeError m) =>
    (some (.attrErr (m ++ udfHint)), ⟨tls.send_tables, tls.recv_tables⟩)
  | .error _ => (none, ⟨tls.send_tables, some tensor_table⟩)

mutual

/-- Values built only from plain scalars, containers and special-type
instances whose decode path is intact: tensors, RRefs, ScriptModules
and RemoteModules.  `recursiveScriptModule` is excluded — it
serializes, but its registered receiver raises `NameError` on every
payload (the claim C10 bug), so it cannot round-trip.  Functions
(`func`), the spec-modelled `nested` handler and `unpicklable` were
never part of the claims' scalar/container/special-type domain. -/
def plainV (v : Value) : Bool :=
  match v with
  | .noneV | .boolV _ | .intV _ | .strV _ | .tensor _ | .rref _ _ => true
  | .scriptModule _ => true
  | .remoteModule _ _ _ _ _ _ _ => true
  | .vlist xs | .vtuple xs => plainL xs
  | .vdict kvs => plainK kvs
  | .func _ | .nested _ | .unpicklable | .recursiveScriptModule _ => false
termination_by structural v

/-- `plainV` on a list spine. -/
def plainL (xs : ValueList) : Bool :=
  match xs with
  | .nil => true
  | .cons hd tl => plainV hd && plainL tl
termination_by structural xs

/-- `plainV` on a dict spine. -/
def plainK (kvs : ValueKVs) : Bool :=
  match kvs with
  | .nil => true
  | .cons k v tl => plainV k && plainV v && plainK tl
termination_by structural kvs

end

mutual

/-- The tensors of a value in traversal (pre-order) encounter order:
exactly the order in which `_tensor_reducer` appends them to the send
table during `p.dump`. -/
def tensorsV (v : Value) : List Tensor :=
  match v with
  | .tensor t => [t]
  | .vlist xs | .vtuple xs => tensorsL xs
  | .vdict kvs => tensorsK kvs
  | _ => []
termination_by structural v

/-- `tensorsV` on a list spine. -/
def tensorsL (xs : ValueList) : List Tensor :=
  match xs with
  | .nil => []
  | .cons hd tl => tensorsV hd ++ tensorsL tl
termination_by structural xs

/-- `tensorsV` on a dict spine. -/
def tensorsK (kvs : ValueKVs) : List Tensor :=
  match kvs with
  | .nil => []
  | .cons k v tl => tensorsV k ++ tensorsV v ++ tensorsK tl
termination_by structural kvs

end

/-- A raised Python exception, as the execution layer observes it: its
type name and its message. -/
structure Fault where
  kind : String
  msg : String
deriving DecidableEq, Repr

/-- Model of `repr(e)` for a caught exception: type name applied to the
message. -/
def reprFault (e : Fault) : String :=
  e.kind ++ "(" ++ e.msg ++ ")"

/-- The `except_str` composed in `_run_function`:
`f"On {worker_info}:\n{repr(e)}\n{traceback.format_exc()}"`. -/
def exceptStr (worker : String) (e : Fault) (tb : String) : String :=
  "On " ++ worker ++ ":\n" ++ reprFault e ++ "\n" ++ tb

/-- Model of `_run_function(python_udf)`.  Ambient runtime facilities
are explicit parameters: `worker` is
`_get_current_rpc_agent().get_worker_info()`, `call` is the Python
function registry applying `python_udf.func` to `args`/`kwargs`
(returning a value or raising a `Fault`), `tb` is
`traceback.format_exc()` for the caught exception.

Faithful to the source's single `try/except Exception`: an
`AttributeError` input is re-raised (`raise python_udf`) and caught by
the same handler; a `PythonUDF` is invoked and any fault is caught; any
other object makes the `python_udf.func` attribute access itself raise
`AttributeError`, also caught.  Every caught fault `e` becomes
`RemoteException(except_str, type(e))`, with `except_str` printed to
stderr — the second component collects the lines printed there. -/
def _run_function (worker : String)
    (call : String → List Value → List (String × Value) → Except Fault Value)
    (tb : Fault → String) (python_udf : PyObj) : PyObj × List String :=
  match python_udf with
  | .attrErr m =>
    let e : Fault := ⟨"AttributeError", m⟩
    let s := exceptStr worker e (tb e)
    (.remoteException s "AttributeError", [s])
  | .udf f a k =>
    match call f a k with
    | .ok v => (.value v, [])
    | .error e =>
      let s := exceptStr worker e (tb e)
      (.remoteException s e.kind, [s])
  | _ =>
    let e : Fault := ⟨"AttributeError", "object has no attribute func"⟩
    let s := exceptStr worker e (tb e)
    (.remoteException s "AttributeError", [s])

/-- Model of `msg.encode("utf-8").decode("unicode_escape")` on the
character sequence: backslash escape sequences are decoded back into
the characters they denote, other characters pass through. -/
def unicodeUnescapeAux : List Char → List Char
  | [] => []
  | '\\' :: 'n' :: rest => '\n' :: unicodeUnescapeAux rest
  | '\\' :: 't' :: rest => '\t' :: unicodeUnescapeAux rest
  | '\\' :: 'r' :: rest => '\r' :: unicodeUnescapeAux rest
  | '\\' :: '\\' :: rest => '\\' :: unicodeUnescapeAux rest
  | c :: rest => c :: unicodeUnescapeAux rest

/-- String wrapper for `unicodeUnescapeAux`. -/
def unicodeUnescape (s : String) : String :=
  ⟨unicodeUnescapeAux s.data⟩

/-- Model of `_handle_exception(result)`: when `result` is a
`RemoteException`, raise `result.exception_type` applied to the
unicode-escape-decoded `result.msg`; otherwise fall off the end of the
function body, i.e. return Python `None`. -/
def _handle_exception (result : PyObj) : Except Fault PyObj :=
  match result with
  | .remoteException m ty => .error ⟨ty, unicodeUnescape m⟩
  | _ => .ok (.value .noneV)

/-- Whether a `PyObj` is a `RemoteException` record
(`isinstance(result, RemoteException)`). -/
def isRemoteException (o : PyObj) : Bool :=
  match o with
  | .remoteException _ _ => true
  | _ => false

/-- The `RPCExecMode` enum of the source, values included. -/
inductive RPCExecMode where
  | SYNC
  | ASYNC
  | ASYNC_JIT
  | REMOTE
deriving DecidableEq, Repr

/-- The `value` of each `RPCExecMode` member. -/
def RPCExecMode.value : RPCExecMode → String
  | .SYNC => "sync"
  | .ASYNC => "async"
  | .ASYNC_JIT => "async_jit"
  | .REMOTE => "remote"

/-- Model of `_build_rpc_profiling_key`: the `str.format` call
`"rpc_{rpc_type}#{func_name}({current_worker} -> {dst_worker})"`
written as the concatenation it performs. -/
def _build_rpc_profiling_key (exec_type : RPCExecMode) (func_name : String)
    (current_worker_name : String) (dst_worker_name : String) : String :=
  "rpc_" ++ exec_type.value ++ "#" ++ func_name ++ "(" ++ current_worker_name
    ++ " -> " ++ dst_worker_name ++ ")"

/-- A function registry whose every call raises
`ValueError("boom")`; used to exercise the fault-interception path. -/
def callRaise0 : String → List Value → List (String × Value) → Except Fault Value :=
  fun _ _ _ => .error ⟨"ValueError", "boom"⟩

/-- A function registry whose every call returns `None`; used to
exercise the success path. -/
def callOk0 : String → List Value → List (String × Value) → Except Fault Value :=
  fun _ _ _ => .ok .noneV

/-- A fixed traceback oracle for concrete evaluations. -/
def tb0 : Fault → String :=
  fun _ => "Traceback (most recent call last): ..."

mutual

/-- The pickle dump never touches the thread-local `recv_tables` slot,
on success or on failure. -/
theorem pdump_recv (v : Value) (tls : TLS) :
    (pdump v tls).2.recv_tables = tls.recv_tables := by
  cases v with
  | tensor t => cases h : tls.send_tables <;> simp [pdump, h]
  | vlist xs =>
    have ih := pdumpList_recv xs tls
    rcases hp : pdumpList xs tls with ⟨o, tls2⟩
    rw [hp] at ih
    cases o <;> simp_all [pdump]
  | vtuple xs =>
    have ih := pdumpList_recv xs tls
    rcases hp : pdumpList xs tls with ⟨o, tls2⟩
    rw [hp] at ih
    cases o <;> simp_all [pdump]
  | vdict kvs =>
    have ih := pdumpKVs_recv kvs tls
    rcases hp : pdumpKVs kvs tls with ⟨o, tls2⟩
    rw [hp] at ih
    cases o <;> simp_all [pdump]
  | nested inner =>
    have ih := pdump_recv inner ⟨some [], tls.recv_tables⟩
    rcases hp : pdump inner ⟨some [], tls.recv_tables⟩ with ⟨o, tls2⟩
    rw [hp] at ih
    cases o <;> simp_all [pdump]
  | _ => rfl

/-- `pdump_recv` on a list spine. -/
theorem pdumpList_recv (xs : ValueList) (tls : TLS) :
    (pdumpList xs tls).2.recv_tables = tls.recv_tables := by
  cases xs with
  | nil => rfl
  | cons hd tl =>
    have ih1 := pdump_recv hd tls
    rcases h1 : pdump hd tls with ⟨o1, tls2⟩
    rw [h1] at ih1
    cases o1 with
    | none => simp_all [pdumpList]
    | some w =>
      have ih2 := pdumpList_recv tl tls2
      rcases h2 : pdumpList tl tls2 with ⟨o2, tls3⟩
      rw [h2] at ih2
      cases o2 <;> simp_all [pdumpList]

/-- `pdump_recv` on a dict spine. -/
theorem pdumpKVs_recv (kvs : ValueKVs) (tls : TLS) :
    (pdumpKVs kvs tls).2.recv_tables = tls.recv_tables := by
  cases kvs with
  | nil => rfl
  | cons k v tl =>
    have ih1 := pdump_recv k tls
    rcases h1 : pdump k tls with ⟨o1, tls2⟩
    rw [h1] at ih1
    cases o1 with
    | none => simp_all [pdumpKVs]
    | some wk =>
      have ih2 := pdump_recv v tls2
      rcases h2 : pdump v tls2 with ⟨o2, tls3⟩
      rw [h2] at ih2
      cases o2 with
      | none => simp_all [pdumpKVs]
      | some wv =>
        have ih3 := pdumpKVs_recv tl tls3
        rcases h3 : pdumpKVs tl tls3 with ⟨o3, tls4⟩
        rw [h3] at ih3
        cases o3 <;> simp_all [pdumpKVs]

end

mutual

/-- Dump/load inverse lemma: dumping a plain value from send table
`tbl0` succeeds, appends exactly the value's pre-order tensor list, and
the produced wire form loads back to the value against any table that
extends the produced one. -/
theorem dumpLoadV (v : Value) (h : plainV v = true) (recv : Option (List Tensor))
    (tbl0 : List Tensor) :
    ∃ w, pdump v ⟨some tbl0, recv⟩ = (some w, ⟨some (tbl0 ++ tensorsV v), recv⟩) ∧
      ∀ env rest, pload env (tbl0 ++ tensorsV v ++ rest) w = .ok v := by
  cases v with
  | noneV =>
    exact ⟨.noneW, by simp [pdump, tensorsV], fun env rest => by simp [pload]⟩
  | boolV b =>
    exact ⟨.boolW b, by simp [pdump, tensorsV], fun env rest => by simp [pload]⟩
  | intV n =>
    exact ⟨.intW n, by simp [pdump, tensorsV], fun env rest => by simp [pload]⟩
  | strV s =>
    exact ⟨.strW s, by simp [pdump, tensorsV], fun env rest => by simp [pload]⟩
  | tensor t =>
    refine ⟨.tensorRef tbl0.length, by simp [pdump, tensorsV], fun env rest => ?_⟩
    have hlt : tbl0.length < (tbl0 ++ tensorsV (.tensor t) ++ rest).length := by
      simp [tensorsV]
    simp only [pload, dif_pos hlt]
    have : (tbl0 ++ tensorsV (.tensor t) ++ rest).get ⟨tbl0.length, hlt⟩ = t := by
      simp [tensorsV, List.getElem_append_right]
    rw [this]
  | rref o i =>
    exact ⟨.rrefData o i, by simp [pdump, tensorsV], fun env rest => by simp [pload]⟩
  | scriptModule saved =>
    exact ⟨.scriptModulePayload saved, by simp [pdump, tensorsV],
      fun env rest => by simp [pload]⟩
  | recursiveScriptModule saved => simp [plainV] at h
  | remoteModule onW dev dm sc gm mo mi =>
    exact ⟨.remoteModulePayload onW dev dm sc gm mo mi, by simp [pdump, tensorsV],
      fun env rest => by simp [pload]⟩
  | func n => simp [plainV] at h
  | nested inner => simp [plainV] at h
  | unpicklable => simp [plainV] at h
  | vlist xs =>
    have hx : plainL xs = true := by simpa [plainV] using h
    obtain ⟨ws, hws, hl⟩ := dumpLoadL xs hx recv tbl0
    refine ⟨.wlist ws, by simp [pdump, hws, tensorsV], fun env rest => ?_⟩
    have hthis := hl env rest
    simp only [List.append_assoc] at hthis
    simp [pload, tensorsV, List.append_assoc, hthis]
  | vtuple xs =>
    have hx : plainL xs = true := by simpa [plainV] using h
    obtain ⟨ws, hws, hl⟩ := dumpLoadL xs hx recv tbl0
    refine ⟨.wtuple ws, by simp [pdump, hws, tensorsV], fun env rest => ?_⟩
    have hthis := hl env rest
    simp only [List.append_assoc] at hthis
    simp [pload, tensorsV, List.append_assoc, hthis]
  | vdict kvs =>
    have hx : plainK kvs = true := by simpa [plainV] using h
    obtain ⟨ws, hws, hl⟩ := dumpLoadK kvs hx recv tbl0
    refine ⟨.wdict ws, by simp [pdump, hws, tensorsV], fun env rest => ?_⟩
    have hthis := hl env rest
    simp only [List.append_assoc] at hthis
    simp [pload, tensorsV, List.append_assoc, hthis]

/-- `dumpLoadV` on a list spine. -/
theorem dumpLoadL (xs : ValueList) (h : plainL xs = true) (recv : Option (List Tensor))
    (tbl0 : List Tensor) :
    ∃ ws, pdumpList xs ⟨some tbl0, recv⟩ = (some ws, ⟨some (tbl0 ++ tensorsL xs), recv⟩) ∧
      ∀ env rest, ploadList env (tbl0 ++ tensorsL xs ++ rest) ws = .ok xs := by
  cases xs with
  | nil =>
    exact ⟨.nil, by simp [pdumpList, tensorsL], fun env rest => by simp [ploadList]⟩
  | cons hd tl =>
    have h1 : plainV hd = true := by
      have := h; simp [plainL, Bool.and_eq_true] at this; exact this.1
    have h2 : plainL tl = true := by
      have := h; simp [plainL, Bool.and_eq_true] at this; exact this.2
    obtain ⟨w, hw, hlw⟩ := dumpLoadV hd h1 recv tbl0
    obtain ⟨ws, hws, hlws⟩ := dumpLoadL tl h2 recv (tbl0 ++ tensorsV hd)
    refine ⟨.cons w ws, ?_, fun env rest => ?_⟩
    · simp [pdumpList, hw, hws, tensorsL, List.append_assoc]
    · have ha := hlw env (tensorsL tl ++ rest)
      have hb := hlws env rest
      simp only [List.append_assoc] at ha hb ⊢
      simp [ploadList, tensorsL, ha, hb, List.append_assoc]

/-- `dumpLoadV` on a dict spine. -/
theorem dumpLoadK (kvs : ValueKVs) (h : plainK kvs = true) (recv : Option (List Tensor))
    (tbl0 : List Tensor) :
    ∃ ws, pdumpKVs kvs ⟨some tbl0, recv⟩ = (some ws, ⟨some (tbl0 ++ tensorsK kvs), recv⟩) ∧
      ∀ env rest, ploadKVs env (tbl0 ++ tensorsK kvs ++ rest) ws = .ok kvs := by
  cases kvs with
  | nil =>
    exact ⟨.nil, by simp [pdumpKVs, tensorsK], fun env rest => by simp [ploadKVs]⟩
  | cons k v tl =>
    have hsplit : (plainV k = true ∧ plainV v = true) ∧ plainK tl = true := by
      simpa [plainK, Bool.and_eq_true] using h
    obtain ⟨⟨h1, h2⟩, h3⟩ := hsplit
    obtain ⟨wk, hwk, hlk⟩ := dumpLoadV k h1 recv tbl0
    obtain ⟨wv, hwv, hlv⟩ := dumpLoadV v h2 recv (tbl0 ++ tensorsV k)
    obtain ⟨ws, hws, hlws⟩ := dumpLoadK tl h3 recv ((tbl0 ++ tensorsV k) ++ tensorsV v)
    refine ⟨.cons wk wv ws, ?_, fun env rest => ?_⟩
    · simp only [List.append_assoc] at hwk hwv hws
      simp [pdumpKVs, hwk, hwv, hws, tensorsK, List.append_assoc]
    · have ha := hlk env (tensorsV v ++ (tensorsK tl ++ rest))
      have hb := hlv env (tensorsK tl ++ rest)
      have hc := hlws env rest
      simp only [List.append_assoc] at ha hb hc
      simp [ploadKVs, tensorsK, ha, hb, hc, List.append_assoc]

end

/-- When `serialize` returns normally, the thread-local state is
restored to its pre-call value. -/
theorem serialize_restore_of_isSome (tls : TLS) (v : Value)
    (h : ((serialize tls v).1).isSome = true) : (serialize tls v).2 = tls := by
  have hrecv := pdump_recv v ⟨some [], tls.recv_tables⟩
  rcases hp : pdump v ⟨some [], tls.recv_tables⟩ with ⟨o, tls2⟩
  rw [hp] at hrecv
  cases o with
  | none => simp [serialize, hp] at h
  | some w => simp_all [serialize, hp]

/-- When `deserialize` returns normally (including the handled
missing-symbol path), the thread-local state is restored to its
pre-call value. -/
theorem deserialize_restore_of_isSome (env : List String) (tls : TLS) (w : Wire)
    (tt : List Tensor) (h : ((deserialize env tls w tt).1).isSome = true) :
    (deserialize env tls w tt).2 = tls := by
  cases hp : pload env tt w with
  | ok v => simp [deserialize, hp]
  | error e =>
    cases e with
    | attributeError m => simp [deserialize, hp]
    | indexError => simp [deserialize, hp] at h
    | unpicklingError => simp [deserialize, hp] at h
    | nameError n => simp [deserialize, hp] at h

/-- Counterexample to claim C1: a value containing a
RecursiveScriptModule — a special-type instance whose reducer is
registered in `serialize`'s dispatch table — serializes successfully,
but deserializing the produced (bytes, tensor table) pair does not
return a value equal to the original: the registered receiver raises
`NameError` on the unbound name `script_module_serialized` (the claim
C10 bug), `deserialize` catches only `AttributeError`, and so the
decode raises instead of returning any value at all. -/
theorem claim_roundtrip_counterexample :
    serialize ⟨none, none⟩ (.recursiveScriptModule [7]) =
      (some (.recursiveScriptModulePayload [7], []), ⟨none, none⟩) ∧
    pload [] [] (.recursiveScriptModulePayload [7]) =
      .error (.nameError "script_module_serialized") ∧
    (deserialize [] ⟨none, none⟩ (.recursiveScriptModulePayload [7]) []).1 = none := by
  refine ⟨rfl, ?_, ?_⟩ <;>
    simp [pload, deserialize, _recursive_script_module_receiver, lookupVar]

/-- Claim C1 as amended: for every value built only from plain scalars,
containers and special-type instances other than RecursiveScriptModule
(`plainV`: tensors, RRefs, ScriptModules, RemoteModules), deserializing
the (bytes, tensor table) pair produced by `serialize` returns the
original value — and both calls leave the thread-local state as they
found it.  (Values containing a RecursiveScriptModule serialize but
fail to decode; see the counterexample.) -/
theorem claim_roundtrip (env : List String) (tls tls2 : TLS) (v : Value)
    (h : plainV v = true) :
    ∃ w tbl, serialize tls v = (some (w, tbl), tls) ∧
      deserialize env tls2 w tbl = (some (.value v), tls2) := by
  obtain ⟨w, hw, hl⟩ := dumpLoadV v h tls.recv_tables []
  simp only [List.nil_append] at hw
  have hload := hl env []
  simp only [List.nil_append, List.append_nil] at hload
  exact ⟨w, tensorsV v, by simp [serialize, hw], by simp [deserialize, hload]⟩

/-- Witness for `claim_roundtrip` at a concrete nested value holding
two tensors, an RRef, a ScriptModule, a RemoteModule, scalars and a
dict. -/
theorem claim_roundtrip_witness :
    plainV (.vlist (.cons (.intV 3) (.cons (.tensor 7)
      (.cons (.vdict (.cons (.strV "k") (.tensor 9) .nil))
        (.cons (.rref 1 2) (.cons (.scriptModule [4])
          (.cons (.remoteModule "w1" "cpu" false true ["forward"] 4 5) .nil))))))) = true ∧
    (∃ w tbl, serialize ⟨none, none⟩ (.vlist (.cons (.intV 3) (.cons (.tensor 7)
        (.cons (.vdict (.cons (.strV "k") (.tensor 9) .nil))
          (.cons (.rref 1 2) (.cons (.scriptModule [4])
            (.cons (.remoteModule "w1" "cpu" false true ["forward"] 4 5) .nil))))))) =
      (some (w, tbl), ⟨none, none⟩) ∧
      deserialize [] ⟨none, none⟩ w tbl =
        (some (.value (.vlist (.cons (.intV 3) (.cons (.tensor 7)
          (.cons (.vdict (.cons (.strV "k") (.tensor 9) .nil))
            (.cons (.rref 1 2) (.cons (.scriptModule [4])
              (.cons (.remoteModule "w1" "cpu" false true ["forward"] 4 5)
                .nil)))))))), ⟨none, none⟩)) :=
  ⟨by decide, claim_roundtrip [] ⟨none, none⟩ ⟨none, none⟩ _ (by decide)⟩

/-- Claim C2: serializing a plain value yields a tensor table that is
exactly the pre-order list of the tensors the value contains
(`tensorsV` — so a value with N tensors yields a table of length N with
the Ith-encountered tensor at zero-based index I), and on decode the
placeholder token carrying index I fetches exactly entry I of the
supplied table. -/
theorem claim_tensor_table (tls : TLS) (v : Value) (h : plainV v = true) :
    (∃ w, serialize tls v = (some (w, tensorsV v), tls)) ∧
    (∀ (env : List String) (tt : List Tensor) (i : Nat) (hi : i < tt.length),
      pload env tt (.tensorRef i) = .ok (.tensor (tt.get ⟨i, hi⟩))) := by
  constructor
  · obtain ⟨w, hw, _⟩ := dumpLoadV v h tls.recv_tables []
    simp only [List.nil_append] at hw
    exact ⟨w, by simp [serialize, hw]⟩
  · intro env tt i hi
    simp [pload, hi]

/-- Witness for `claim_tensor_table`: a value containing tensors 7, 9
and 11 in pre-order yields the table [7, 9, 11], and index 1 fetches
entry 1. -/
theorem claim_tensor_table_witness :
    plainV (.vlist (.cons (.tensor 7) (.cons (.vtuple (.cons (.tensor 9) .nil))
      (.cons (.tensor 11) .nil)))) = true ∧
    tensorsV (.vlist (.cons (.tensor 7) (.cons (.vtuple (.cons (.tensor 9) .nil))
      (.cons (.tensor 11) .nil)))) = [7, 9, 11] ∧
    (∃ w, serialize ⟨none, none⟩ (.vlist (.cons (.tensor 7)
        (.cons (.vtuple (.cons (.tensor 9) .nil)) (.cons (.tensor 11) .nil)))) =
      (some (w, [7, 9, 11]), ⟨none, none⟩)) ∧
    pload [] [7, 9, 11] (.tensorRef 1) = .ok (.tensor 9) := by
  refine ⟨by decide, by decide, ?_, ?_⟩
  · have := (claim_tensor_table ⟨none, none⟩ (.vlist (.cons (.tensor 7)
      (.cons (.vtuple (.cons (.tensor 9) .nil)) (.cons (.tensor 11) .nil)))) (by decide)).1
    simpa using this
  · have := (claim_tensor_table ⟨none, none⟩ (.tensor 0) (by decide)).2 [] [7, 9, 11] 1
      (by decide)
    simpa using this

/-- Claim C3: an outer `serialize` of `[tensor a, nested value, tensor c]`,
whose middle element's special-type handler performs a full nested
`serialize` of `tensor b` on the same thread, accumulates the outer
table `[a, c]` (index 0 before the nested call, index 1 resuming right
after it), embeds the inner call's independent table `[b]` with the
inner placeholder index starting again at 0, and — for every pre-call
thread-local state `tls`, nested or not — leaves the thread-scoped slot
holding exactly its pre-call value when the call returns. -/
theorem claim_nested_isolation (tls : TLS) (a b c : Tensor) :
    serialize tls (.vlist (.cons (.tensor a) (.cons (.nested (.tensor b))
      (.cons (.tensor c) .nil)))) =
    (some (.wlist (.cons (.tensorRef 0) (.cons (.blob (.tensorRef 0) [b])
      (.cons (.tensorRef 1) .nil))), [a, c]), tls) := rfl

/-- Counterexample to claim C4: `serialize` has no `try/finally`, so
when the pickle traversal raises (here: an unpicklable value) the
restore lines are skipped and the thread-local slot, absent before the
call, is left holding the in-flight empty table. -/
theorem claim_restore_counterexample :
    serialize ⟨none, none⟩ .unpicklable = (none, ⟨some [], none⟩) ∧
    (⟨some [], none⟩ : TLS) ≠ (⟨none, none⟩ : TLS) :=
  ⟨rfl, by decide⟩

/-- Claim C4 as amended: on every normal-return exit path of
`serialize` and `deserialize` — including `deserialize`'s handled
missing-symbol path — the per-thread `send_tables`/`recv_tables` state
is restored to exactly the value (or absence) it held before the call;
when the underlying traversal raises an unhandled exception the restore
is skipped. -/
theorem claim_restore_on_return :
    (∀ (tls : TLS) (v : Value), ((serialize tls v).1).isSome = true →
      (serialize tls v).2 = tls) ∧
    (∀ (env : List String) (tls : TLS) (w : Wire) (tt : List Tensor),
      ((deserialize env tls w tt).1).isSome = true → (deserialize env tls w tt).2 = tls) :=
  ⟨serialize_restore_of_isSome, deserialize_restore_of_isSome⟩

/-- Witness for `claim_restore_on_return` at concrete calls: a
successful serialize of a tensor and a deserialize hitting the handled
missing-symbol path, both from a non-empty pre-call state. -/
theorem claim_restore_on_return_witness :
    (((serialize ⟨some [9], some [1]⟩ (.tensor 5)).1).isSome = true ∧
      (serialize ⟨some [9], some [1]⟩ (.tensor 5)).2 = ⟨some [9], some [1]⟩) ∧
    (((deserialize [] ⟨some [9], some [1]⟩ (.globalRef "my_udf") [3]).1).isSome = true ∧
      (deserialize [] ⟨some [9], some [1]⟩ (.globalRef "my_udf") [3]).2 = ⟨some [9], some [1]⟩) :=
  ⟨⟨by decide, claim_restore_on_return.1 ⟨some [9], some [1]⟩ (.tensor 5) (by decide)⟩,
   ⟨by decide, claim_restore_on_return.2 [] ⟨some [9], some [1]⟩ (.globalRef "my_udf") [3]
      (by decide)⟩⟩

/-- Claim C5: whenever the unpickling traversal fails because a
referenced global symbol cannot be resolved (an `AttributeError`),
`deserialize` does not raise: it returns an `AttributeError` value
whose description is the original message — which names the missing
symbol — followed by the remediation hint that UDFs must be defined on
both caller and callee modules, and it restores the thread-local
state. -/
theorem claim_missing_symbol (env : List String) (tls : TLS) (tt : List Tensor)
    (name : String) (h : env.contains name = false) :
    (∀ (w : Wire) (m : String), pload env tt w = .error (.attributeError m) →
      deserialize env tls w tt = (some (.attrErr (m ++ udfHint)), tls)) ∧
    pload env tt (.globalRef name) = .error (.attributeError (cantGetAttr name)) ∧
    deserialize env tls (.globalRef name) tt =
      (some (.attrErr (cantGetAttr name ++ udfHint)), tls) := by
  have h2 : name ∉ env := by simpa using h
  have hg : pload env tt (.globalRef name) = .error (.attributeError (cantGetAttr name)) := by
    simp [pload, h2]
  refine ⟨fun w m hm => by simp [deserialize, hm], hg, by simp [deserialize, hg]⟩

/-- Witness for `claim_missing_symbol`: an environment not containing
`my_udf`. -/
theorem claim_missing_symbol_witness :
    (["torch"].contains "my_udf") = false ∧
    deserialize ["torch"] ⟨none, none⟩ (.globalRef "my_udf") [3] =
      (some (.attrErr (cantGetAttr "my_udf" ++ udfHint)), ⟨none, none⟩) :=
  ⟨by decide, (claim_missing_symbol ["torch"] ⟨none, none⟩ [3] "my_udf" (by decide)).2.2⟩

/-- Counterexample to claim C6: handed the failure value propagated
from a failed decode, `_run_function` does not return it unchanged — it
re-raises and re-wraps it into a `RemoteException`. -/
theorem claim_passthrough_counterexample :
    (_run_function "worker0" callOk0 tb0 (.attrErr "boom")).1 ≠ .attrErr "boom" := by
  simp [_run_function]

/-- Claim C6 as amended: on an `AttributeError` input propagated from a
failed decode, `_run_function` attempts no invocation (the result is
the same for every function registry `call`), but instead of returning
the failure value unchanged it re-raises it internally and returns a
`RemoteException` whose description wraps the original message with the
worker identity and traceback and whose kind tag is `AttributeError`,
logging that description. -/
theorem claim_attrerr_wrapped (worker : String)
    (call : String → List Value → List (String × Value) → Except Fault Value)
    (tb : Fault → String) (m : String) :
    _run_function worker call tb (.attrErr m) =
      (.remoteException (exceptStr worker ⟨"AttributeError", m⟩ (tb ⟨"AttributeError", m⟩))
        "AttributeError",
       [exceptStr worker ⟨"AttributeError", m⟩ (tb ⟨"AttributeError", m⟩)]) := rfl

/-- Claim C7: when invoking the call descriptor raises a fault,
`_run_function` intercepts it and returns (never raises) a
`RemoteException` whose description is composed of the local worker's
identity, the string form of the fault and the execution trace, whose
kind tag is the original fault's type, and whose description is also
written to the local diagnostic stream; on a successful invocation it
returns the function's result value. -/
theorem claim_run_function_faults (worker : String)
    (call : String → List Value → List (String × Value) → Except Fault Value)
    (tb : Fault → String) (f : String) (a : List Value) (k : List (String × Value)) :
    (∀ e, call f a k = .error e →
      _run_function worker call tb (.udf f a k) =
        (.remoteException (exceptStr worker e (tb e)) e.kind, [exceptStr worker e (tb e)])) ∧
    (∀ v, call f a k = .ok v →
      _run_function worker call tb (.udf f a k) = (.value v, [])) := by
  constructor <;> intro x hx <;> simp [_run_function, hx]

/-- Witness for `claim_run_function_faults`: a registry raising
`ValueError("boom")` and a registry returning `None`. -/
theorem claim_run_function_faults_witness :
    (callRaise0 "f" [] [] = .error ⟨"ValueError", "boom"⟩ ∧
      _run_function "worker0" callRaise0 tb0 (.udf "f" [] []) =
        (.remoteException (exceptStr "worker0" ⟨"ValueError", "boom"⟩
            (tb0 ⟨"ValueError", "boom"⟩)) "ValueError",
         [exceptStr "worker0" ⟨"ValueError", "boom"⟩ (tb0 ⟨"ValueError", "boom"⟩)])) ∧
    (callOk0 "f" [] [] = .ok .noneV ∧
      _run_function "worker0" callOk0 tb0 (.udf "f" [] []) = (.value .noneV, [])) :=
  ⟨⟨rfl, (claim_run_function_faults "worker0" callRaise0 tb0 "f" [] []).1 _ rfl⟩,
   ⟨rfl, (claim_run_function_faults "worker0" callOk0 tb0 "f" [] []).2 _ rfl⟩⟩

/-- Counterexample to claim C8: on an outcome that is not a failure
value, `_handle_exception` falls off the end of its body and returns
`None`, not the outcome unchanged. -/
theorem claim_handle_exception_counterexample :
    _handle_exception (.value (.intV 5)) = .ok (.value .noneV) ∧
    _handle_exception (.value (.intV 5)) ≠ .ok (.value (.intV 5)) :=
  ⟨rfl, by simp [_handle_exception]⟩

/-- Claim C8 as amended: `_handle_exception(outcome)` raises if and
only if the outcome is a `RemoteException`; when it raises, the fault
is of the failure's recorded kind and carries the description with the
textual escape transform reversed (unicode-escape decoding); for every
other outcome it returns `None` (not the outcome). -/
theorem claim_handle_exception_raise_iff :
    (∀ m ty, _handle_exception (.remoteException m ty) = .error ⟨ty, unicodeUnescape m⟩) ∧
    (∀ o, isRemoteException o = false → _handle_exception o = .ok (.value .noneV)) := by
  refine ⟨fun m ty => rfl, fun o ho => ?_⟩
  cases o <;> simp_all [_handle_exception, isRemoteException]

/-- Witness for `claim_handle_exception_raise_iff` at concrete
outcomes. -/
theorem claim_handle_exception_raise_iff_witness :
    isRemoteException (.value (.strV "ok")) = false ∧
    _handle_exception (.value (.strV "ok")) = .ok (.value .noneV) ∧
    _handle_exception (.remoteException "boom" "ValueError") =
      .error ⟨"ValueError", unicodeUnescape "boom"⟩ :=
  ⟨rfl, claim_handle_exception_raise_iff.2 _ rfl,
    claim_handle_exception_raise_iff.1 "boom" "ValueError"⟩

/-- Claim C9: `_build_rpc_profiling_key` is a pure function and, for
each member of the four-member `RPCExecMode` enumeration (the spec's
{sync, async, async_compiled, remote}, where `async_compiled` is the
source's `ASYNC_JIT` with value `async_jit`) and all strings, it
returns exactly `rpc_{mode value}#{func}({src} -> {dst})`; in
particular the sync instance on `foo`, `workerA`, `workerB` is exactly
`rpc_sync#foo(workerA -> workerB)`. -/
theorem claim_profiling_key :
    (∀ fn src dst, _build_rpc_profiling_key .SYNC fn src dst =
      "rpc_sync#" ++ fn ++ "(" ++ src ++ " -> " ++ dst ++ ")") ∧
    (∀ fn src dst, _build_rpc_profiling_key .ASYNC fn src dst =
      "rpc_async#" ++ fn ++ "(" ++ src ++ " -> " ++ dst ++ ")") ∧
    (∀ fn src dst, _build_rpc_profiling_key .ASYNC_JIT fn src dst =
      "rpc_async_jit#" ++ fn ++ "(" ++ src ++ " -> " ++ dst ++ ")") ∧
    (∀ fn src dst, _build_rpc_profiling_key .REMOTE fn src dst =
      "rpc_remote#" ++ fn ++ "(" ++ src ++ " -> " ++ dst ++ ")") ∧
    _build_rpc_profiling_key .SYNC "foo" "workerA" "workerB" =
      "rpc_sync#foo(workerA -> workerB)" :=
  ⟨fun _ _ _ => rfl, fun _ _ _ => rfl, fun _ _ _ => rfl, fun _ _ _ => rfl, rfl⟩

/-- Claim C10: for every payload, `_recursive_script_module_receiver`
fails with an unbound-name error on `script_module_serialized` — its
body reads that name while its parameter binds
`recursive_script_module_serialized` — before the load hook can run
(the result is the same for every `jitLoad`); consequently no payload
produced by `_recursive_script_module_reducer` is ever decoded
successfully by this receiver. -/
theorem claim_receiver_name_error :
    (∀ (jitLoad : Bytes → Value) (payload : Bytes),
      _recursive_script_module_receiver jitLoad payload =
        .error (.nameError "script_module_serialized")) ∧
    (∀ (jitLoad : Bytes → Value) (jitSave : Value → Bytes) (m : Value),
      _recursive_script_module_receiver jitLoad
          (_recursive_script_module_reducer jitSave m) =
        .error (.nameError "script_module_serialized")) := by
  have hall : ∀ (jitLoad : Bytes → Value) (payload : Bytes),
      _recursive_script_module_receiver jitLoad payload =
        .error (.nameError "script_module_serialized") := by
    intro jitLoad payload
    simp [_recursive_script_module_receiver, lookupVar]
  exact ⟨hall, fun jitLoad jitSave m => hall jitLoad _⟩

end RpcInternal
